import Mathlib

/-!
Verification of the AI-Fun backend (`src/main.py`) against its specification.

The Python code is shallowly embedded: each handler becomes a pure Lean
function; ambient inputs (current date, day of week, hour) and the external
completion service become explicit parameters; the completion call's outcome
becomes an explicit value (success text or error).  Python `str` methods used
by the code (`strip`, `upper`, `startswith`, `split`, `replace`) are embedded
over `List Char`, restricted to ASCII case mapping where Python is
Unicode-aware; every string the code matches on ("QUESTION:", "ANSWER:",
"ASCII:", "INSIGHT:", "TYPE:", "TRAITS:") is pure ASCII, so the restriction
is inessential.  `hashlib.md5(...).hexdigest()` is embedded as a complete MD5
implementation over byte lists (RFC 1321), with the digest rendered in
lowercase hexadecimal.
-/

namespace AIFun

/-! ### Python string primitives -/

/-- Whitespace recognised by Python `str.strip()` / `str.split()` for the
ASCII range: space, tab, newline, vertical tab, form feed, carriage return. -/
def isPySpace (c : Char) : Bool :=
  c = ' ' || c = '\t' || c = '\n' || c.toNat = 11 || c.toNat = 12 || c = '\r'

/-- Python `s.strip()` (ASCII whitespace). -/
def pyStrip (s : String) : String :=
  ⟨((s.data.dropWhile isPySpace).reverse.dropWhile isPySpace).reverse⟩

/-- Python `s.upper()` restricted to ASCII letters (Lean's `Char.toUpper`). -/
def pyUpper (s : String) : String :=
  ⟨s.data.map Char.toUpper⟩

/-- Python `s.startswith(pre)`. -/
def pyStartsWith (s pre : String) : Bool :=
  pre.data.isPrefixOf s.data

/-- Everything after the first `':'` of the list (empty if there is none). -/
def afterFirstColon : List Char → List Char
  | [] => []
  | c :: rest => if c = ':' then rest else afterFirstColon rest

/-- Python `s.split(":", 1)[1]`.  In the code this is only evaluated on lines
that passed a `startswith` check guaranteeing a colon, so the out-of-colon
case (where Python would raise `IndexError`) is unreachable at call sites;
the embedding returns `""` there. -/
def pySplitColon1 (s : String) : String :=
  ⟨afterFirstColon s.data⟩

/-- Python `s.split("\n")` on character lists: separator-split, empty pieces
kept, `[""]` for the empty string. -/
def splitNL : List Char → List (List Char)
  | [] => [[]]
  | c :: rest =>
    let r := splitNL rest
    if c = '\n' then [] :: r
    else
      match r with
      | [] => [[c]]
      | l :: ls => (c :: l) :: ls

/-- Python `content.split("\n")`. -/
def pyLines (s : String) : List String :=
  (splitNL s.data).map fun l => ⟨l⟩

/-- Python `s.split(",")` (separator-split, empty pieces kept). -/
def splitComma : List Char → List (List Char)
  | [] => [[]]
  | c :: rest =>
    let r := splitComma rest
    if c = ',' then [] :: r
    else
      match r with
      | [] => [[c]]
      | l :: ls => (c :: l) :: ls

/-- Python `s.split()` (no separator): split on whitespace runs, dropping
empty pieces.  `acc` is the current word accumulated in reverse. -/
def pySplitWSAux : List Char → List Char → List String
  | [], acc => if acc.isEmpty then [] else [⟨acc.reverse⟩]
  | c :: rest, acc =>
    if isPySpace c then
      if acc.isEmpty then pySplitWSAux rest []
      else (⟨acc.reverse⟩ : String) :: pySplitWSAux rest []
    else pySplitWSAux rest (c :: acc)

/-- Python `s.split()`. -/
def pySplitWS (s : String) : List String :=
  pySplitWSAux s.data []

/-- Python `s.replace(pat, "")` for a nonempty `pat`: delete every
(left-to-right, non-overlapping) occurrence of `pat`.  Fuel-indexed; the fuel
is instantiated with the length of the string, which suffices because each
step consumes at least one character. -/
def eraseAllAux (pat : List Char) : Nat → List Char → List Char
  | 0, l => l
  | _ + 1, [] => []
  | fuel + 1, c :: rest =>
    if pat.isPrefixOf (c :: rest) then
      eraseAllAux pat fuel ((c :: rest).drop pat.length)
    else
      c :: eraseAllAux pat fuel rest

/-- Python `s.replace(pat, "")` (the only form of `replace` in the code). -/
def pyReplaceEmpty (s pat : String) : String :=
  if pat.data.isEmpty then s else ⟨eraseAllAux pat.data s.data.length s.data⟩

/-! ### MD5 (RFC 1321), embedding `hashlib.md5(x).hexdigest()` -/

/-- The word modulus of MD5, `2^32`. -/
def MOD32 : Nat := 4294967296

/-- Addition modulo `2^32`. -/
def add32 (a b : Nat) : Nat := (a + b) % MOD32

/-- Complement on 32 bits (for arguments below `2^32`). -/
def not32 (a : Nat) : Nat := Nat.xor a 4294967295

/-- Left rotation on 32 bits by `s` places (`0 < s < 32`, `x < 2^32`). -/
def rotl32 (x s : Nat) : Nat :=
  ((x <<< s) % MOD32) + (x >>> (32 - s))

/-- The 64 MD5 sine-derived constants `K[i] = floor(2^32 * |sin(i+1)|)`. -/
def md5K : List Nat :=
  [0xd76aa478, 0xe8c7b756, 0x242070db, 0xc1bdceee,
   0xf57c0faf, 0x4787c62a, 0xa8304613, 0xfd469501,
   0x698098d8, 0x8b44f7af, 0xffff5bb1, 0x895cd7be,
   0x6b901122, 0xfd987193, 0xa679438e, 0x49b40821,
   0xf61e2562, 0xc040b340, 0x265e5a51, 0xe9b6c7aa,
   0xd62f105d, 0x02441453, 0xd8a1e681, 0xe7d3fbc8,
   0x21e1cde6, 0xc33707d6, 0xf4d50d87, 0x455a14ed,
   0xa9e3e905, 0xfcefa3f8, 0x676f02d9, 0x8d2a4c8a,
   0xfffa3942, 0x8771f681, 0x6d9d6122, 0xfde5380c,
   0xa4beea44, 0x4bdecfa9, 0xf6bb4b60, 0xbebfbc70,
   0x289b7ec6, 0xeaa127fa, 0xd4ef3085, 0x04881d05,
   0xd9d4d039, 0xe6db99e5, 0x1fa27cf8, 0xc4ac5665,
   0xf4292244, 0x432aff97, 0xab9423a7, 0xfc93a039,
   0x655b59c3, 0x8f0ccc92, 0xffeff47d, 0x85845dd1,
   0x6fa87e4f, 0xfe2ce6e0, 0xa3014314, 0x4e0811a1,
   0xf7537e82, 0xbd3af235, 0x2ad7d2bb, 0xeb86d391]

/-- The 64 MD5 per-round left-rotation amounts. -/
def md5S : List Nat :=
  [7, 12, 17, 22, 7, 12, 17, 22, 7, 12, 17, 22, 7, 12, 17, 22,
   5, 9, 14, 20, 5, 9, 14, 20, 5, 9, 14, 20, 5, 9, 14, 20,
   4, 11, 16, 23, 4, 11, 16, 23, 4, 11, 16, 23, 4, 11, 16, 23,
   6, 10, 15, 21, 6, 10, 15, 21, 6, 10, 15, 21, 6, 10, 15, 21]

/-- The MD5 nonlinear function of round `i`. -/
def md5F (i b c d : Nat) : Nat :=
  if i < 16 then Nat.lor (Nat.land b c) (Nat.land (not32 b) d)
  else if i < 32 then Nat.lor (Nat.land d b) (Nat.land (not32 d) c)
  else if i < 48 then Nat.xor b (Nat.xor c d)
  else Nat.xor c (Nat.lor b (not32 d))

/-- The MD5 message-word index of round `i`. -/
def md5G (i : Nat) : Nat :=
  if i < 16 then i
  else if i < 32 then (5 * i + 1) % 16
  else if i < 48 then (3 * i + 5) % 16
  else (7 * i) % 16

/-- MD5 working state: the four 32-bit registers `A, B, C, D`. -/
abbrev MD5State := Nat × Nat × Nat × Nat

/-- One MD5 round: rotate the registers, mixing in constant, message word and
nonlinear function. -/
def md5Round (M : List Nat) (st : MD5State) (i : Nat) : MD5State :=
  let f := (md5F i st.2.1 st.2.2.1 st.2.2.2 + st.1 +
            md5K.getD i 0 + M.getD (md5G i) 0) % MOD32
  (st.2.2.2, add32 st.2.1 (rotl32 f (md5S.getD i 0)), st.2.1, st.2.2.1)

/-- Decode a 64-byte chunk into sixteen little-endian 32-bit words. -/
def wordsLE : List Nat → List Nat
  | b0 :: b1 :: b2 :: b3 :: rest =>
    (b0 + 256 * b1 + 65536 * b2 + 16777216 * b3) :: wordsLE rest
  | _ => []

/-- Run the 64 rounds over one chunk and add the result into the state. -/
def processChunk (st : MD5State) (chunk : List Nat) : MD5State :=
  let M := wordsLE chunk
  let r := (List.range 64).foldl (md5Round M) st
  (add32 st.1 r.1, add32 st.2.1 r.2.1, add32 st.2.2.1 r.2.2.1,
   add32 st.2.2.2 r.2.2.2)

/-- Split a byte list into 64-byte chunks (fuel-indexed on the length). -/
def chunks64Aux : Nat → List Nat → List (List Nat)
  | 0, _ => []
  | _ + 1, [] => []
  | fuel + 1, l => l.take 64 :: chunks64Aux fuel (l.drop 64)

/-- Split a byte list into 64-byte chunks. -/
def chunks64 (l : List Nat) : List (List Nat) :=
  chunks64Aux l.length l

/-- MD5 padding: append `0x80`, zero-pad to 56 mod 64, append the bit length
as eight little-endian bytes. -/
def md5pad (msg : List Nat) : List Nat :=
  let z := (120 - (msg.length + 1) % 64) % 64
  let bits := 8 * msg.length
  msg ++ [0x80] ++ List.replicate z 0 ++
    ((List.range 8).map fun i => bits / 256 ^ i % 256)

/-- The four bytes of a 32-bit word, little-endian. -/
def wordBytesLE (w : Nat) : List Nat :=
  [w % 256, w / 256 % 256, w / 65536 % 256, w / 16777216 % 256]

/-- The sixteen digest bytes of a final MD5 state. -/
def stateBytes (st : MD5State) : List Nat :=
  wordBytesLE st.1 ++ wordBytesLE st.2.1 ++ wordBytesLE st.2.2.1 ++
    wordBytesLE st.2.2.2

/-- MD5 of a byte list, as the sixteen digest bytes. -/
def md5bytes (msg : List Nat) : List Nat :=
  stateBytes ((chunks64 (md5pad msg)).foldl processChunk
    (0x67452301, 0xefcdab89, 0x98badcfe, 0x10325476))

/-- The sixteen lowercase hexadecimal digits, in value order. -/
def hexDigits : List Char :=
  "0123456789abcdef".data

/-- The lowercase hexadecimal digit of a value below 16. -/
def hexChar (n : Nat) : Char :=
  hexDigits.getD n '0'

/-- The two lowercase hexadecimal digits of a byte. -/
def byteToHex (b : Nat) : List Char :=
  [hexChar (b / 16), hexChar (b % 16)]

/-- UTF-8 encoding of one character, as bytes. -/
def utf8EncodeChar (c : Char) : List Nat :=
  let n := c.toNat
  if n < 128 then [n]
  else if n < 2048 then [192 + n / 64, 128 + n % 64]
  else if n < 65536 then
    [224 + n / 4096, 128 + n / 64 % 64, 128 + n % 64]
  else
    [240 + n / 262144, 128 + n / 4096 % 64, 128 + n / 64 % 64, 128 + n % 64]

/-- UTF-8 encoding of a string, as bytes (Python `s.encode()`). -/
def utf8Bytes (s : String) : List Nat :=
  s.data.flatMap utf8EncodeChar

/-- Python `hashlib.md5(s.encode()).hexdigest()`. -/
def md5hexdigest (s : String) : String :=
  ⟨(md5bytes (utf8Bytes s)).flatMap byteToHex⟩

/-! ### The completion gateway (`call_openai_api`, `main.py` lines 75-91)

The external service call is the one effect of the program.  Its outcome is
embedded as a value: either the text the service produced, or the error it
raised (any transport, authentication, or service-side exception, summarised
by its message).  An "oracle" maps each prompt to the outcome that the
external world returns for it; the handlers take the oracle as a parameter.
The sampling parameters (`max_tokens`, `temperature`, fixed
`presence_penalty=0.3`, `frequency_penalty=0.1`) and the fixed system message
only shape which outcome the world produces, which the oracle already
abstracts, so they are not tracked separately. -/

/-- The outcome of one external completion call. -/
inductive ApiOutcome where
  | success (content : String)
  | failure (err : String)

/-- The gateway `call_openai_api`: on success the content is returned
stripped (`.strip()`); any exception is caught and replaced by the fixed
fallback string of line 91. -/
def call_openai_api (oracle : String → ApiOutcome) (prompt : String) : String :=
  match oracle prompt with
  | ApiOutcome.success content => pyStrip content
  | ApiOutcome.failure _ => "Something magical went wrong, but you are still amazing! ✨"

/-! ### Daily seed and the affirmation endpoint (`main.py` lines 71-122) -/

/-- The daily seed `get_date_hash` (lines 71-73): the first 8 characters of
the MD5 hex digest of the date string.  The ambient
`datetime.now().strftime("%Y-%m-%d")` becomes the explicit parameter
`today`. -/
def get_date_hash (today : String) : String :=
  ⟨(md5hexdigest today).data.take 8⟩

/-- Python `s[a:b]` for `0 ≤ a ≤ b` (the slices `[:2]` and `[2:4]`). -/
def pySlice (s : String) (a b : Nat) : String :=
  ⟨(s.data.drop a).take (b - a)⟩

/-- The value of a hexadecimal digit character. -/
def hexVal (c : Char) : Option Nat :=
  if '0' ≤ c && c ≤ '9' then some (c.toNat - 48)
  else if 'a' ≤ c && c ≤ 'f' then some (c.toNat - 87)
  else if 'A' ≤ c && c ≤ 'F' then some (c.toNat - 55)
  else none

/-- One digit step of base-16 parsing: accumulate, or fail on a non-digit. -/
def hexFoldStep (acc : Option Nat) (c : Char) : Option Nat :=
  match acc, hexVal c with
  | some a, some v => some (16 * a + v)
  | _, _ => none

/-- Python `int(s, 16)` on the guarded fragment the code can produce: a
string of hexadecimal digits parses to its value; an empty string or any
non-hex-digit character raises `ValueError`, embedded as `none`.  (Python
additionally tolerates surrounding whitespace, a sign and an `0x` prefix,
none of which occur here.) -/
def pyIntBase16 (s : String) : Option Nat :=
  if s.data = [] then none
  else s.data.foldl hexFoldStep (some 0)

/-- The fixed visual-emoji list of line 114 (8 entries). -/
def visuals : List String :=
  ["✨", "🌟", "🌅", "💫", "🔥", "🌈", "🦋", "🌸"]

/-- The fixed mood-color list of line 115 (7 entries). -/
def colors : List String :=
  ["#FF6B6B", "#4ECDC4", "#45B7D1", "#96CEB4", "#FFEAA7", "#DDA0DD", "#98D8C8"]

/-- The time-of-day descriptor of line 101. -/
def time_context (hour : Nat) : String :=
  if hour < 12 then "morning" else if hour < 17 then "afternoon" else "evening"

/-- The affirmation prompt f-string of lines 103-111. -/
def affirmationPrompt (tc day_of_week language date_hash : String) : String :=
  "\n    Create a deeply inspiring daily affirmation for a " ++ tc ++ " on " ++
    day_of_week ++ ".\n    Language: " ++ language ++
    "\n    Requirements:\n    - 2-3 sentences\n    - Uplifting, poetic, encouraging" ++
    "\n    - End with hope for the day ahead\n    Seed: " ++ date_hash ++ "\n    "

/-- The affirmation response record (lines 44-48); all fields are strings. -/
structure AffirmationResponse where
  affirmation : String
  visual_element : String
  date : String
  mood_color : String
  deriving DecidableEq, Repr

/-- The handler `get_daily_affirmation` (lines 95-122).  Ambient time becomes the
parameters `today`, `day_of_week`, `hour`; the request carries `language`.
Python list indexing and `int(_, 16)` can raise, so the result is an
`Option`: `none` is the handler raising `IndexError`/`ValueError`. -/
def get_daily_affirmation (oracle : String → ApiOutcome)
    (today day_of_week : String) (hour : Nat) (language : String) :
    Option AffirmationResponse :=
  (pyIntBase16 (pySlice (get_date_hash today) 0 2)).bind fun v1 =>
  (pyIntBase16 (pySlice (get_date_hash today) 2 4)).bind fun v2 =>
  (visuals.get? (v1 % visuals.length)).bind fun ve =>
  (colors.get? (v2 % colors.length)).bind fun mc =>
  some { affirmation := call_openai_api oracle
           (affirmationPrompt (time_context hour) day_of_week language
             (get_date_hash today))
         visual_element := ve
         date := today
         mood_color := mc }

/-! ### Random fun endpoint (`main.py` lines 136-170) -/

/-- One entry of the `fun_types` list: a type tag, its emoji and its prompt. -/
structure FunTemplate where
  type : String
  emoji : String
  prompt : String
  deriving DecidableEq, Repr

/-- The active `fun_types` list of lines 140-161: three templates (the
`riddle` entry is commented out in the source). -/
def fun_types (language : String) : List FunTemplate :=
  let lang_instruction := "Write in " ++ language ++ " using simple, clear words."
  [{ type := "joke", emoji := "😄",
     prompt := lang_instruction ++
       " Give one short, funny, family-friendly joke that anyone can understand. Keep it under 20 words." },
   { type := "compliment", emoji := "💝",
     prompt := lang_instruction ++
       " Give one short, warm compliment about someone's character or kindness. Under 20 words." },
   { type := "art", emoji := "🎨",
     prompt := lang_instruction ++
       " Describe one small imaginary art scene in 1–2 short sentences that is easy to picture." }]

theorem fun_types_length (language : String) : (fun_types language).length = 3 := rfl

/-- The random-fun response record (lines 53-56). -/
structure RandomFunResponse where
  type : String
  content : String
  emoji : String
  deriving DecidableEq, Repr

/-- The handler `get_random_fun` (lines 136-170).  `random.choice(fun_types)` draws one
of the three list entries uniformly; the drawn index becomes the explicit
parameter `choice`. -/
def get_random_fun (oracle : String → ApiOutcome) (language : String)
    (choice : Fin 3) : RandomFunResponse :=
  let t := (fun_types language).get (Fin.cast (fun_types_length language).symm choice)
  { type := t.type, content := call_openai_api oracle t.prompt, emoji := t.emoji }

/-! ### Riddle endpoint (`main.py` lines 173-198) -/

/-- The riddle prompt f-string of lines 175-183. -/
def riddlePrompt (language : String) : String :=
  "Write in " ++ language ++ " using simple, clear words.\n" ++
    "    Give one short, fun riddle for 5 to 20 age kids. \n    Output format:\n" ++
    "    QUESTION: [riddle text]\n    ANSWER: [answer text]\n" ++
    "    Keep both under 20 words.\n    "

/-- The test `line.upper().startswith("QUESTION:")` of line 190. -/
def isQuestionLine (line : String) : Bool :=
  pyStartsWith (pyUpper line) "QUESTION:"

/-- The test `line.upper().startswith("ANSWER:")` of line 192. -/
def isAnswerLine (line : String) : Bool :=
  pyStartsWith (pyUpper line) "ANSWER:"

/-- One iteration of the riddle parsing loop (lines 189-193): overwrite
`question` at a line whose upper-case form starts with `QUESTION:`,
`answer` at a line whose upper-case form starts with `ANSWER:`. -/
def riddleStep (qa : String × String) (line : String) : String × String :=
  if isQuestionLine line then (pyStrip (pySplitColon1 line), qa.2)
  else if isAnswerLine line then (qa.1, pyStrip (pySplitColon1 line))
  else qa

/-- The riddle parsing loop of lines 188-193, as a pure function of the raw
completion text; initial state `(content, "")`. -/
def riddleParse (content : String) : String × String :=
  (pyLines content).foldl riddleStep (content, "")

/-- The handler `get_riddle` (lines 173-198): the parsed question/answer pair of the
gateway's text. -/
def get_riddle (oracle : String → ApiOutcome) (language : String) :
    String × String :=
  riddleParse (call_openai_api oracle (riddlePrompt language))

/-! ### ASCII challenge endpoint (`main.py` lines 200-251) -/

/-- The ASCII-challenge prompt of lines 204-229. -/
def asciiPrompt (language : String) : String :=
  "The answer must be in " ++ language ++ ".\n\n" ++
    "Create a simple ASCII art puzzle for kids and young adults (ages 5–22).\n\n" ++
    "Rules:\n- Draw using only keyboard characters (|, _, /, \\, (, ), *, etc.).\n" ++
    "- Make it 3–6 lines tall and easy to recognize.\n" ++
    "- The ASCII art should represent an animal, object, or simple scene.\n" ++
    "- Keep it fun and not too detailed.\n" ++
    "- After the ASCII art, write the correct answer in " ++ language ++ ".\n\n" ++
    "Output format exactly:\nASCII:\n[line1]\n[line2]\n[line3]\n...\n" ++
    "ANSWER: [short answer in " ++ language ++ "]\n\n" ++
    "Example:\nASCII:\n |\\_/|\n ( o.o )\n > ^ <\nANSWER: Cat\n"

/-- The loop state of lines 234-236: captured art lines, answer so far, and
the `capture_ascii` flag. -/
structure AsciiState where
  art : List String
  answer : String
  capture : Bool
  deriving DecidableEq, Repr

/-- The test `line.strip().upper().startswith("ASCII:")` of line 238. -/
def asciiMarker (line : String) : Bool :=
  pyStartsWith (pyUpper (pyStrip line)) "ASCII:"

/-- The test `line.strip().upper().startswith("ANSWER:")` of line 241. -/
def answerMarker (line : String) : Bool :=
  pyStartsWith (pyUpper (pyStrip line)) "ANSWER:"

/-- One iteration of the parsing loop of lines 237-246. -/
def asciiStep (st : AsciiState) (line : String) : AsciiState :=
  if asciiMarker line then
    { st with capture := true }
  else if answerMarker line then
    { art := st.art, answer := pyStrip (pySplitColon1 line), capture := false }
  else if st.capture then
    { st with art := st.art ++ [line] }
  else st

/-- The ASCII parsing of lines 233-251 as a pure function of the raw text:
the captured art lines joined with newlines (`"\n".join(ascii_art)`), and
the extracted answer. -/
def asciiParse (content : String) : String × String :=
  (String.intercalate "\n"
      ((pyLines content).foldl asciiStep { art := [], answer := "", capture := false }).art,
   ((pyLines content).foldl asciiStep { art := [], answer := "", capture := false }).answer)

/-- The handler `get_ascii_challenge` (lines 200-251). -/
def get_ascii_challenge (oracle : String → ApiOutcome) (language : String) :
    String × String :=
  asciiParse (call_openai_api oracle (asciiPrompt language))

/-! ### Personality insight endpoint (`main.py` lines 256-289) -/

/-- The request record of lines 58-61. -/
structure PersonalityRequest where
  input : String
  language : String
  context : Option String
  deriving DecidableEq, Repr

/-- The response record of lines 63-68.  `confidence_score` is a Python
float computed as `min(0.95, 0.6 + N * 0.05)`; the literals and arithmetic
are embedded exactly over `ℚ`. -/
structure PersonalityResponse where
  insight : String
  traits : List String
  personality_type : String
  share_text : String
  confidence_score : ℚ
  deriving DecidableEq, Repr

/-- The personality prompt f-string of lines 261-272. -/
def personalityPrompt (req : PersonalityRequest) : String :=
  "\n    Based on this: \"" ++ req.input ++ "\"\n    Give:\n" ++
    "    - 3-4 sentence personality insight\n    - A creative personality type name\n" ++
    "    - 3-4 key traits\n    Language: " ++ req.language ++
    "\n    Format:\n    INSIGHT: ...\n    TYPE: ...\n    TRAITS: ...\n    "

/-- One iteration of the parsing loop of lines 276-280: exact-case prefix
matches; matched keyword occurrences are deleted from the whole line
(`line.replace(kw, "")`) and the remainder stripped.  The traits line is
comma-split; pieces are stripped and pieces that strip to empty are dropped
(the comprehension keeps `t.strip()` exactly when `t.strip()` is truthy). -/
def personalityStep (st : String × String × List String) (line : String) :
    String × String × List String :=
  if pyStartsWith line "INSIGHT:" then
    (pyStrip (pyReplaceEmpty line "INSIGHT:"), st.2.1, st.2.2)
  else if pyStartsWith line "TYPE:" then
    (st.1, pyStrip (pyReplaceEmpty line "TYPE:"), st.2.2)
  else if pyStartsWith line "TRAITS:" then
    (st.1, st.2.1,
      (((splitComma (pyReplaceEmpty line "TRAITS:").data).map
        fun t => pyStrip ⟨t⟩).filter fun t => t ≠ ""))
  else st

/-- The parsing of lines 275-280 as a pure function of the raw text, giving
`(insight, personality_type, traits)`; defaults `(text, "The Unique Soul",
["Creative", "Thoughtful", "Inspiring"])`. -/
def personalityParse (text : String) : String × String × List String :=
  (pyLines text).foldl personalityStep
    (text, "The Unique Soul", ["Creative", "Thoughtful", "Inspiring"])

/-- The handler `get_personality_insight` (lines 256-289).  An empty-after-strip input
raises `HTTPException(400, "Input cannot be empty")` before any gateway
call, embedded as `Except.error (400, _)`; otherwise the parsed response is
returned with the traits truncated to 4 and the confidence score
`min(0.95, 0.6 + word_count * 0.05)`. -/
def get_personality_insight (oracle : String → ApiOutcome)
    (req : PersonalityRequest) : Except (Nat × String) PersonalityResponse :=
  if pyStrip req.input = "" then
    Except.error (400, "Input cannot be empty")
  else
    let text := call_openai_api oracle (personalityPrompt req)
    let r := personalityParse text
    Except.ok
      { insight := r.1
        traits := r.2.2.take 4
        personality_type := r.2.1
        share_text := "I just discovered I'm " ++ r.2.1 ++ "! 🌟 What's your AI personality type?"
        confidence_score :=
          min (95 / 100 : ℚ) (6 / 10 + ((pySplitWS req.input).length : ℚ) * (5 / 100)) }

/-! ### Sanity checks of the MD5 embedding against standard test vectors -/

set_option maxRecDepth 40000

example : md5hexdigest "" = "d41d8cd98f00b204e9800998ecf8427e" := rfl

example : md5hexdigest "abc" = "900150983cd24fb0d6963f7d28e17f72" := rfl

example : get_date_hash "2024-01-01" = "f867f4b1" := rfl

/-! ### Parser loop lemmas -/

theorem isAnswerLine_not_question (l : String) (h : isAnswerLine l = true) :
    isQuestionLine l = false := by
  unfold isAnswerLine pyStartsWith at h
  unfold isQuestionLine pyStartsWith
  obtain ⟨t, ht⟩ := List.isPrefixOf_iff_prefix.mp h
  rw [← ht]
  rfl

theorem riddleStep_fst_of_not_question (qa : String × String) (line : String)
    (h : isQuestionLine line = false) : (riddleStep qa line).1 = qa.1 := by
  cases ha : isAnswerLine line <;> simp [riddleStep, h, ha]

theorem riddleStep_snd_of_not_answer (qa : String × String) (line : String)
    (h : isAnswerLine line = false) : (riddleStep qa line).2 = qa.2 := by
  cases hq : isQuestionLine line <;> simp [riddleStep, h, hq]

theorem riddle_foldl_fst_of_no_question :
    ∀ (lines : List String) (st : String × String),
      (lines.filter fun l => isQuestionLine l) = [] →
      (lines.foldl riddleStep st).1 = st.1 := by
  intro lines
  induction lines with
  | nil => intro st _; rfl
  | cons l ls ih =>
    intro st h
    cases hq : isQuestionLine l with
    | true => simp [List.filter_cons, hq] at h
    | false =>
      have h' : (ls.filter fun x => isQuestionLine x) = [] := by
        simpa [List.filter_cons, hq] using h
      calc (List.foldl riddleStep st (l :: ls)).1
          = (List.foldl riddleStep (riddleStep st l) ls).1 := rfl
        _ = (riddleStep st l).1 := ih _ h'
        _ = st.1 := riddleStep_fst_of_not_question st l hq

theorem riddle_foldl_snd_of_no_answer :
    ∀ (lines : List String) (st : String × String),
      (lines.filter fun l => isAnswerLine l) = [] →
      (lines.foldl riddleStep st).2 = st.2 := by
  intro lines
  induction lines with
  | nil => intro st _; rfl
  | cons l ls ih =>
    intro st h
    cases ha : isAnswerLine l with
    | true => simp [List.filter_cons, ha] at h
    | false =>
      have h' : (ls.filter fun x => isAnswerLine x) = [] := by
        simpa [List.filter_cons, ha] using h
      calc (List.foldl riddleStep st (l :: ls)).2
          = (List.foldl riddleStep (riddleStep st l) ls).2 := rfl
        _ = (riddleStep st l).2 := ih _ h'
        _ = st.2 := riddleStep_snd_of_not_answer st l ha

theorem riddle_foldl_fst_last_question (pre post : List String)
    (lq : String) (st : String × String) (hq : isQuestionLine lq = true)
    (hpost : (post.filter fun l => isQuestionLine l) = []) :
    ((pre ++ lq :: post).foldl riddleStep st).1 = pyStrip (pySplitColon1 lq) := by
  rw [List.foldl_append, List.foldl_cons]
  rw [riddle_foldl_fst_of_no_question post _ hpost]
  simp [riddleStep, hq]

theorem riddle_foldl_snd_last_answer (pre post : List String)
    (la : String) (st : String × String) (ha : isAnswerLine la = true)
    (hpost : (post.filter fun l => isAnswerLine l) = []) :
    ((pre ++ la :: post).foldl riddleStep st).2 = pyStrip (pySplitColon1 la) := by
  rw [List.foldl_append, List.foldl_cons]
  rw [riddle_foldl_snd_of_no_answer post _ hpost]
  simp [riddleStep, isAnswerLine_not_question la ha, ha]

/-! ### Claim theorems -/

/-- C1 counterexample.  The spec's quoted fallback sentence is not the string
the gateway returns on failure: the code's string (line 91) carries a
trailing sparkle emoji. -/
theorem call_openai_api_fallback_ne_spec_sentence :
    call_openai_api (fun _ => ApiOutcome.failure "connection error") "any prompt" ≠
      "Something magical went wrong, but you are still amazing!" := by
  decide

/-- C1 (amended): for every prompt and every error raised by the external
completion call, `call_openai_api` catches the error and returns the one
fixed fallback sentence "Something magical went wrong, but you are still
amazing! ✨" instead of generated content; being a total function into
`String`, it never raises past this boundary, so every caller always
receives a string. -/
theorem call_openai_api_failure_returns_fallback
    (oracle : String → ApiOutcome) (prompt err : String)
    (h : oracle prompt = ApiOutcome.failure err) :
    call_openai_api oracle prompt =
      "Something magical went wrong, but you are still amazing! ✨" := by
  unfold call_openai_api
  rw [h]

/-- C1 witness: applying the fallback theorem at a concrete failing oracle. -/
theorem call_openai_api_failure_returns_fallback_witness :
    call_openai_api (fun _ => ApiOutcome.failure "connection reset") "hello" =
      "Something magical went wrong, but you are still amazing! ✨" :=
  call_openai_api_failure_returns_fallback
    (fun _ => ApiOutcome.failure "connection reset") "hello" "connection reset" rfl

/-- C2 counterexample.  On a raw text with two `QUESTION:` lines the parser
returns the extraction of the second (last) one, `"B"`, not the first line's
`"A"` that the claim demands. -/
theorem riddleParse_first_match_counterexample :
    (riddleParse "QUESTION: A\nQUESTION: B").1 = "B" ∧
      isQuestionLine "QUESTION: A" = true ∧
      pyStrip (pySplitColon1 "QUESTION: A") = "A" ∧
      ("B" : String) ≠ "A" := by
  refine ⟨rfl, rfl, rfl, by decide⟩

/-- C2 (amended): for every raw completion text containing more than one
line whose upper-cased form starts with `QUESTION:` (or more than one
starting with `ANSWER:`), the riddle parser's output question (respectively
answer) is taken from the last such matching line: if the line list splits
as `preq ++ lq :: postq` with `lq` a question line and no question line in
`postq` (so `lq` is the last matching line), the question is extracted from
`lq`, and symmetrically for the answer. -/
theorem riddleParse_last_match_wins (content lq la : String)
    (preq postq prea posta : List String)
    (hsplitq : pyLines content = preq ++ lq :: postq)
    (hq : isQuestionLine lq = true)
    (hpostq : (postq.filter fun l => isQuestionLine l) = [])
    (hsplita : pyLines content = prea ++ la :: posta)
    (ha : isAnswerLine la = true)
    (hposta : (posta.filter fun l => isAnswerLine l) = []) :
    riddleParse content =
      (pyStrip (pySplitColon1 lq), pyStrip (pySplitColon1 la)) := by
  have h1 : (riddleParse content).1 = pyStrip (pySplitColon1 lq) := by
    unfold riddleParse
    rw [hsplitq]
    exact riddle_foldl_fst_last_question preq postq lq _ hq hpostq
  have h2 : (riddleParse content).2 = pyStrip (pySplitColon1 la) := by
    unfold riddleParse
    rw [hsplita]
    exact riddle_foldl_snd_last_answer prea posta la _ ha hposta
  exact Prod.ext h1 h2

/-- C2 witness: on a text with two question and two answer lines, the last
of each wins. -/
theorem riddleParse_last_match_wins_witness :
    riddleParse "QUESTION: A\nQUESTION: B\nANSWER: C\nANSWER: D" = ("B", "D") := by
  have h := riddleParse_last_match_wins
    "QUESTION: A\nQUESTION: B\nANSWER: C\nANSWER: D"
    "QUESTION: B" "ANSWER: D"
    ["QUESTION: A"] ["ANSWER: C", "ANSWER: D"]
    ["QUESTION: A", "QUESTION: B", "ANSWER: C"] []
    (by decide) (by decide) (by decide) (by decide) (by decide) (by decide)
  rw [h]
  decide

/-- C3 counterexample.  On a raw text with a `QUESTION:` line but no
`ANSWER:` line, the question is the extraction of the question line, not the
full raw text the claim demands. -/
theorem riddleParse_question_default_counterexample :
    riddleParse "QUESTION: Why?" = ("Why?", "") ∧
      (("QUESTION: Why?" : String) ≠ "Why?") ∧
      (pyLines "QUESTION: Why?").filter (fun l => isAnswerLine l) = [] := by
  refine ⟨by decide, by decide, by decide⟩

/-- C3 (amended): the riddle parser, applied to the raw text
`"QUESTION: Why?\nANSWER: Because."`, returns question `"Why?"` and answer
`"Because."`; for every raw text containing no line starting with `ANSWER:`
(case-insensitive) it returns answer `""`, and when the text additionally
contains no line starting with `QUESTION:` the question equals the full raw
text. -/
theorem riddleParse_defaults :
    riddleParse "QUESTION: Why?\nANSWER: Because." = ("Why?", "Because.") ∧
      (∀ content : String,
        ((pyLines content).filter fun l => isAnswerLine l) = [] →
          (riddleParse content).2 = "" ∧
            (((pyLines content).filter fun l => isQuestionLine l) = [] →
              riddleParse content = (content, ""))) := by
  refine ⟨by decide, ?_⟩
  intro content hA
  have h2 : (riddleParse content).2 = "" :=
    riddle_foldl_snd_of_no_answer (pyLines content) (content, "") hA
  refine ⟨h2, ?_⟩
  intro hQ
  have h1 : (riddleParse content).1 = content :=
    riddle_foldl_fst_of_no_question (pyLines content) (content, "") hQ
  exact Prod.ext h1 h2

/-! ### ASCII parser lemmas and C5 -/

theorem answerMarker_not_ascii (l : String) (h : answerMarker l = true) :
    asciiMarker l = false := by
  unfold answerMarker pyStartsWith at h
  unfold asciiMarker pyStartsWith
  obtain ⟨t, ht⟩ := List.isPrefixOf_iff_prefix.mp h
  rw [← ht]
  rfl

theorem ascii_foldl_skip :
    ∀ (lines : List String) (st : AsciiState),
      (∀ l ∈ lines, asciiMarker l = false ∧ answerMarker l = false) →
      st.capture = false → lines.foldl asciiStep st = st := by
  intro lines
  induction lines with
  | nil => intro st _ _; rfl
  | cons l ls ih =>
    intro st h hc
    have h1 := (h l (List.mem_cons_self l ls)).1
    have h2 := (h l (List.mem_cons_self l ls)).2
    have hstep : asciiStep st l = st := by
      simp [asciiStep, h1, h2, hc]
    rw [List.foldl_cons, hstep]
    exact ih st (fun x hx => h x (List.mem_cons_of_mem l hx)) hc

theorem ascii_foldl_capture :
    ∀ (lines : List String) (st : AsciiState),
      (∀ l ∈ lines, asciiMarker l = false ∧ answerMarker l = false) →
      st.capture = true →
      lines.foldl asciiStep st =
        { art := st.art ++ lines, answer := st.answer, capture := true } := by
  intro lines
  induction lines with
  | nil =>
    intro st _ hc
    obtain ⟨a, b, c⟩ := st
    simp only [AsciiState.capture] at hc
    subst hc
    simp
  | cons l ls ih =>
    intro st h hc
    have h1 := (h l (List.mem_cons_self l ls)).1
    have h2 := (h l (List.mem_cons_self l ls)).2
    have hstep : asciiStep st l = { st with art := st.art ++ [l] } := by
      simp [asciiStep, h1, h2, hc]
    rw [List.foldl_cons, hstep]
    rw [ih { st with art := st.art ++ [l] }
      (fun x hx => h x (List.mem_cons_of_mem l hx)) hc]
    simp

/-- C5: the ASCII-challenge parser captures art lines strictly between a
line matching `ASCII:` (that line excluded) and a line matching `ANSWER:`
(from which the answer is extracted), ignoring lines before `ASCII:` and
lines after capture stops with no further `ASCII:`. -/
theorem asciiParse_captures_between_markers (content la lb : String)
    (pre mid post : List String)
    (hlines : pyLines content = pre ++ la :: (mid ++ lb :: post))
    (hpre : ∀ l ∈ pre, asciiMarker l = false ∧ answerMarker l = false)
    (hmid : ∀ l ∈ mid, asciiMarker l = false ∧ answerMarker l = false)
    (hpost : ∀ l ∈ post, asciiMarker l = false ∧ answerMarker l = false)
    (hla : asciiMarker la = true) (hlb : answerMarker lb = true) :
    asciiParse content =
      (String.intercalate "\n" mid, pyStrip (pySplitColon1 lb)) := by
  have key : (pyLines content).foldl asciiStep { art := [], answer := "", capture := false } =
      { art := mid, answer := pyStrip (pySplitColon1 lb), capture := false } := by
    rw [hlines, List.foldl_append]
    rw [ascii_foldl_skip pre _ hpre rfl]
    rw [List.foldl_cons]
    have h1 : asciiStep { art := [], answer := "", capture := false } la =
        { art := [], answer := "", capture := true } := by
      simp [asciiStep, hla]
    rw [h1, List.foldl_append]
    rw [ascii_foldl_capture mid _ hmid rfl]
    rw [List.foldl_cons]
    have h2 : asciiStep { art := ([] : List String) ++ mid, answer := "", capture := true } lb =
        { art := ([] : List String) ++ mid, answer := pyStrip (pySplitColon1 lb),
          capture := false } := by
      simp [asciiStep, answerMarker_not_ascii lb hlb, hlb]
    rw [h2]
    rw [ascii_foldl_skip post _ hpost rfl]
    simp
  unfold asciiParse
  rw [key]

/-- C5 witness: the spec's concrete test case, instantiating the capture
theorem at `"ASCII:\n |\_/|\n( o.o )\nANSWER: Cat"`. -/
theorem asciiParse_captures_between_markers_witness :
    asciiParse "ASCII:\n |\\_/|\n( o.o )\nANSWER: Cat" =
      (" |\\_/|\n( o.o )", "Cat") := by
  have h := asciiParse_captures_between_markers
    "ASCII:\n |\\_/|\n( o.o )\nANSWER: Cat" "ASCII:" "ANSWER: Cat"
    [] [" |\\_/|", "( o.o )"] []
    (by decide) (by simp) (by decide) (by simp) (by decide) (by decide)
  rw [h]
  decide

/-! ### Personality parser lemmas, C8, C7, C6 -/

theorem personality_foldl_skip :
    ∀ (lines : List String) (st : String × String × List String),
      (∀ l ∈ lines, pyStartsWith l "INSIGHT:" = false ∧
        pyStartsWith l "TYPE:" = false ∧ pyStartsWith l "TRAITS:" = false) →
      lines.foldl personalityStep st = st := by
  intro lines
  induction lines with
  | nil => intro st _; rfl
  | cons l ls ih =>
    intro st h
    have h1 := (h l (List.mem_cons_self l ls)).1
    have h2 := (h l (List.mem_cons_self l ls)).2.1
    have h3 := (h l (List.mem_cons_self l ls)).2.2
    have hstep : personalityStep st l = st := by
      simp [personalityStep, h1, h2, h3]
    rw [List.foldl_cons, hstep]
    exact ih st fun x hx => h x (List.mem_cons_of_mem l hx)

/-- C8: keyword detection is case-insensitive in the riddle and ASCII
parsers (a lower-case `question:`/`answer:`/`ascii:` line matches) but
exact-case only in the personality parser: whenever no line carries the
exact upper-case `INSIGHT:`/`TYPE:`/`TRAITS:` prefix — in particular when
those keywords appear only in lower case — the fixed defaults are used. -/
theorem keyword_case_sensitivity :
    riddleParse "question: Why?\nanswer: Because." = ("Why?", "Because.") ∧
      asciiParse "ascii:\nART LINE\nanswer: Cat" = ("ART LINE", "Cat") ∧
      (∀ text : String,
        (∀ l ∈ pyLines text, pyStartsWith l "INSIGHT:" = false ∧
          pyStartsWith l "TYPE:" = false ∧ pyStartsWith l "TRAITS:" = false) →
        personalityParse text =
          (text, "The Unique Soul", ["Creative", "Thoughtful", "Inspiring"])) ∧
      personalityParse "insight: deep\ntype: Bold\ntraits: kind, brave" =
        ("insight: deep\ntype: Bold\ntraits: kind, brave", "The Unique Soul",
          ["Creative", "Thoughtful", "Inspiring"]) := by
  refine ⟨by decide, by decide, ?_, by decide⟩
  intro text h
  exact personality_foldl_skip (pyLines text) _ h

/-- C7: an empty or whitespace-only personality input yields the HTTP 400
client error with its descriptive message, and the handler's result does not
depend on the completion oracle at all — no gateway call is made. -/
theorem personality_empty_input_rejected
    (oracle oracle' : String → ApiOutcome) (req : PersonalityRequest)
    (h : pyStrip req.input = "") :
    get_personality_insight oracle req =
        Except.error (400, "Input cannot be empty") ∧
      get_personality_insight oracle req = get_personality_insight oracle' req := by
  constructor
  · unfold get_personality_insight
    rw [if_pos h]
  · unfold get_personality_insight
    rw [if_pos h, if_pos h]

/-- C7 witness: a whitespace-only input is rejected identically under a
succeeding and a failing oracle. -/
theorem personality_empty_input_rejected_witness :
    get_personality_insight (fun _ => ApiOutcome.success "INSIGHT: x")
        { input := "   ", language := "english", context := none } =
      Except.error (400, "Input cannot be empty") ∧
      get_personality_insight (fun _ => ApiOutcome.success "INSIGHT: x")
          { input := "   ", language := "english", context := none } =
        get_personality_insight (fun p => ApiOutcome.failure p)
          { input := "   ", language := "english", context := none } :=
  personality_empty_input_rejected _ _ _ (by decide)

/-- C6: for every personality request the handler answers (non-empty input),
the returned confidence score equals `min(0.95, 0.6 + 0.05 * N)` where `N`
is the whitespace-split word count of the input; for `N = 7` the score is
exactly `0.95` (capped). -/
theorem personality_confidence_formula
    (oracle : String → ApiOutcome) (req : PersonalityRequest)
    (N : Nat) (r : PersonalityResponse)
    (h : get_personality_insight oracle req = Except.ok r)
    (hN : (pySplitWS req.input).length = N) :
    r.confidence_score = min (95 / 100 : ℚ) (6 / 10 + (N : ℚ) * (5 / 100)) ∧
      (N = 7 → r.confidence_score = 95 / 100) := by
  unfold get_personality_insight at h
  by_cases hc : pyStrip req.input = ""
  · rw [if_pos hc] at h
    cases h
  · rw [if_neg hc] at h
    injection h with h'
    constructor
    · rw [← h']
      show min (95 / 100 : ℚ) (6 / 10 + ((pySplitWS req.input).length : ℚ) * (5 / 100)) = _
      rw [hN]
    · intro h7
      rw [← h']
      show min (95 / 100 : ℚ) (6 / 10 + ((pySplitWS req.input).length : ℚ) * (5 / 100)) = _
      rw [hN, h7]
      norm_num

/-- A concrete 7-word request for the confidence witness. -/
def confWitnessReq : PersonalityRequest :=
  { input := "a b c d e f g", language := "english", context := none }

/-- The response the handler computes for `confWitnessReq` under an oracle
answering `"TYPE: Bold"` (the confidence field is kept in the handler's
unevaluated form; it equals `19/20`). -/
def confWitnessResp : PersonalityResponse :=
  { insight := "TYPE: Bold"
    traits := ["Creative", "Thoughtful", "Inspiring"]
    personality_type := "Bold"
    share_text := "I just discovered I'm Bold! 🌟 What's your AI personality type?"
    confidence_score :=
      min (95 / 100 : ℚ) (6 / 10 + ((pySplitWS "a b c d e f g").length : ℚ) * (5 / 100)) }

/-- C6 witness: seven words cap the confidence at exactly 0.95. -/
theorem personality_confidence_formula_witness :
    (pySplitWS "a b c d e f g").length = 7 ∧
      confWitnessResp.confidence_score = 95 / 100 := by
  have h : get_personality_insight (fun _ => ApiOutcome.success "TYPE: Bold")
      confWitnessReq = Except.ok confWitnessResp := by rfl
  exact ⟨by decide,
    (personality_confidence_formula _ confWitnessReq 7 confWitnessResp h (by decide)).2 rfl⟩

/-! ### Random fun: C9 -/

/-- C9: every random-fun response has its type and emoji drawn, as a pair,
from the three fixed templates; the content is the gateway's text for the
selected template's prompt, verbatim; the selection ranges over exactly the
three pairwise-distinct templates `joke`/`compliment`/`art` (so a uniform
draw of the index is a uniform draw of the template). -/
theorem random_fun_templates (oracle : String → ApiOutcome)
    (language : String) (choice : Fin 3) :
    ((get_random_fun oracle language choice).type,
        (get_random_fun oracle language choice).emoji) ∈
        [("joke", "😄"), ("compliment", "💝"), ("art", "🎨")] ∧
      (get_random_fun oracle language choice).content =
        call_openai_api oracle
          ((fun_types language).get
            (Fin.cast (fun_types_length language).symm choice)).prompt ∧
      (get_random_fun oracle language choice).type =
        ((fun_types language).get
          (Fin.cast (fun_types_length language).symm choice)).type ∧
      (get_random_fun oracle language choice).emoji =
        ((fun_types language).get
          (Fin.cast (fun_types_length language).symm choice)).emoji ∧
      ((fun_types language).map fun t => (t.type, t.emoji)) =
        [("joke", "😄"), ("compliment", "💝"), ("art", "🎨")] ∧
      ((fun_types language).map FunTemplate.type).Nodup := by
  have hm : ((fun_types language).map FunTemplate.type) =
      ["joke", "compliment", "art"] := rfl
  refine ⟨?_, rfl, rfl, rfl, rfl, ?_⟩
  · obtain ⟨i, hi⟩ := choice
    interval_cases i <;> simp [get_random_fun, fun_types]
  · rw [hm]
    decide

/-! ### Digest shape lemmas, C4 and C10 -/

theorem hexChar_mem (n : Nat) : hexChar n ∈ hexDigits := by
  unfold hexChar
  rw [List.getD_eq_getElem?_getD]
  cases h : hexDigits[n]? with
  | none => simp [h]; decide
  | some c =>
    simp [h]
    exact List.getElem?_mem h

theorem md5hexdigest_chars (s : String) :
    ∀ c ∈ (md5hexdigest s).data, c ∈ hexDigits := by
  intro c hc
  have hc' : c ∈ (md5bytes (utf8Bytes s)).flatMap byteToHex := hc
  obtain ⟨b, _, hcb⟩ := List.mem_flatMap.mp hc'
  simp [byteToHex] at hcb
  rcases hcb with h | h <;> (rw [h]; exact hexChar_mem _)

theorem stateBytes_length (st : MD5State) : (stateBytes st).length = 16 := by
  simp [stateBytes, wordBytesLE]

theorem flatMap_byteToHex_length :
    ∀ bs : List Nat, (bs.flatMap byteToHex).length = 2 * bs.length := by
  intro bs
  induction bs with
  | nil => rfl
  | cons b bs ih =>
    simp [List.flatMap_cons, byteToHex, ih]
    omega

theorem md5bytes_length (msg : List Nat) : (md5bytes msg).length = 16 :=
  stateBytes_length _

theorem md5hexdigest_length (s : String) : (md5hexdigest s).data.length = 32 := by
  show ((md5bytes (utf8Bytes s)).flatMap byteToHex).length = 32
  rw [flatMap_byteToHex_length, md5bytes_length]

theorem get_date_hash_length (t : String) : (get_date_hash t).length = 8 := by
  show ((md5hexdigest t).data.take 8).length = 8
  rw [List.length_take, md5hexdigest_length]
  decide

theorem get_date_hash_chars (t : String) :
    ∀ c ∈ (get_date_hash t).data, c ∈ hexDigits := by
  intro c hc
  exact md5hexdigest_chars t c (List.mem_of_mem_take hc)

theorem hexVal_all : ∀ c ∈ hexDigits, (hexVal c).isSome = true := by decide

theorem hexFold_some :
    ∀ (l : List Char) (a : Nat), (∀ c ∈ l, (hexVal c).isSome = true) →
      ∃ v, l.foldl hexFoldStep (some a) = some v := by
  intro l
  induction l with
  | nil => intro a _; exact ⟨a, rfl⟩
  | cons c cs ih =>
    intro a h
    obtain ⟨v, hv⟩ := Option.isSome_iff_exists.mp (h c (List.mem_cons_self c cs))
    have hstep : hexFoldStep (some a) c = some (16 * a + v) := by
      simp [hexFoldStep, hv]
    rw [List.foldl_cons, hstep]
    exact ih (16 * a + v) fun x hx => h x (List.mem_cons_of_mem c hx)

theorem pyIntBase16_some (l : List Char) (hne : l ≠ [])
    (h : ∀ c ∈ l, (hexVal c).isSome = true) : ∃ v, pyIntBase16 ⟨l⟩ = some v := by
  show ∃ v, (if l = [] then none else l.foldl hexFoldStep (some 0)) = some v
  rw [if_neg hne]
  exact hexFold_some l 0 h

theorem date_hash_slice02_some (t : String) :
    ∃ v, pyIntBase16 (pySlice (get_date_hash t) 0 2) = some v := by
  have hlen : (get_date_hash t).data.length = 8 := get_date_hash_length t
  show ∃ v, pyIntBase16 ⟨((get_date_hash t).data.drop 0).take 2⟩ = some v
  apply pyIntBase16_some
  · apply List.ne_nil_of_length_pos
    rw [List.length_take, List.length_drop, hlen]
    decide
  · intro c hc
    exact hexVal_all c
      (get_date_hash_chars t c (List.mem_of_mem_drop (List.mem_of_mem_take hc)))

theorem date_hash_slice24_some (t : String) :
    ∃ v, pyIntBase16 (pySlice (get_date_hash t) 2 4) = some v := by
  have hlen : (get_date_hash t).data.length = 8 := get_date_hash_length t
  show ∃ v, pyIntBase16 ⟨((get_date_hash t).data.drop 2).take 2⟩ = some v
  apply pyIntBase16_some
  · apply List.ne_nil_of_length_pos
    rw [List.length_take, List.length_drop, hlen]
    decide
  · intro c hc
    exact hexVal_all c
      (get_date_hash_chars t c (List.mem_of_mem_drop (List.mem_of_mem_take hc)))

theorem visuals_get?_isSome : ∀ i < 8, (visuals.get? i).isSome = true := by decide

theorem colors_get?_isSome : ∀ i < 7, (colors.get? i).isSome = true := by decide

/-- Elimination form of a successful affirmation response: the decoration
fields come from the seed's two slices, parsed base-16 and reduced modulo
the list lengths. -/
theorem get_daily_affirmation_some_spec
    (oracle : String → ApiOutcome) (today day_of_week : String) (hour : Nat)
    (language : String) (r : AffirmationResponse)
    (h : get_daily_affirmation oracle today day_of_week hour language = some r) :
    ∃ v1 v2,
      pyIntBase16 (pySlice (get_date_hash today) 0 2) = some v1 ∧
        pyIntBase16 (pySlice (get_date_hash today) 2 4) = some v2 ∧
        visuals.get? (v1 % visuals.length) = some r.visual_element ∧
        colors.get? (v2 % colors.length) = some r.mood_color := by
  unfold get_daily_affirmation at h
  rw [Option.bind_eq_some] at h
  obtain ⟨v1, hv1, h⟩ := h
  rw [Option.bind_eq_some] at h
  obtain ⟨v2, hv2, h⟩ := h
  rw [Option.bind_eq_some] at h
  obtain ⟨ve, hve, h⟩ := h
  rw [Option.bind_eq_some] at h
  obtain ⟨mc, hmc, h⟩ := h
  have hr := Option.some.inj h
  subst hr
  exact ⟨v1, v2, hv1, hv2, hve, hmc⟩

/-- C4: the daily seed is a pure function of the date string (in this
embedding `get_date_hash` takes only the date), always an 8-character token
of lowercase hexadecimal digits; and for a fixed date the affirmation
endpoint's `visual_element` and `mood_color` are the same on every call that
day — whatever the oracle, hour, day-of-week or language — both equal to the
entries selected by the token's first and second 2-character slices read
base-16 and reduced modulo the lengths of the fixed 8-entry visuals list and
7-entry colors list. -/
theorem daily_affirmation_deterministic
    (today dow dow' lang lang' : String) (hour hour' : Nat)
    (oracle oracle' : String → ApiOutcome) (r r' : AffirmationResponse)
    (h : get_daily_affirmation oracle today dow hour lang = some r)
    (h' : get_daily_affirmation oracle' today dow' hour' lang' = some r') :
    get_date_hash today = get_date_hash today ∧
      (get_date_hash today).length = 8 ∧
      (∀ c ∈ (get_date_hash today).data, c ∈ hexDigits) ∧
      r.visual_element = r'.visual_element ∧
      r.mood_color = r'.mood_color ∧
      visuals.length = 8 ∧ colors.length = 7 ∧
      ∃ v1 v2,
        pyIntBase16 (pySlice (get_date_hash today) 0 2) = some v1 ∧
          pyIntBase16 (pySlice (get_date_hash today) 2 4) = some v2 ∧
          visuals.get? (v1 % visuals.length) = some r.visual_element ∧
          colors.get? (v2 % colors.length) = some r.mood_color := by
  obtain ⟨v1, v2, hv1, hv2, hve, hmc⟩ :=
    get_daily_affirmation_some_spec oracle today dow hour lang r h
  obtain ⟨w1, w2, hw1, hw2, hwe, hwc⟩ :=
    get_daily_affirmation_some_spec oracle' today dow' hour' lang' r' h'
  have e1 : v1 = w1 := Option.some.inj (hv1.symm.trans hw1)
  have e2 : v2 = w2 := Option.some.inj (hv2.symm.trans hw2)
  refine ⟨rfl, get_date_hash_length today, get_date_hash_chars today, ?_, ?_,
    rfl, rfl, v1, v2, hv1, hv2, hve, hmc⟩
  · apply Option.some.inj
    rw [← hve, ← hwe, e1]
  · apply Option.some.inj
    rw [← hmc, ← hwc, e2]

/-- The affirmation response computed for 2024-01-01 under a failing oracle. -/
def affirmWitnessFail : AffirmationResponse :=
  { affirmation := "Something magical went wrong, but you are still amazing! ✨"
    visual_element := "✨"
    date := "2024-01-01"
    mood_color := "#DDA0DD" }

/-- The affirmation response computed for 2024-01-01 under a succeeding
oracle, at a different hour, day-of-week and language. -/
def affirmWitnessOk : AffirmationResponse :=
  { affirmation := "You are great."
    visual_element := "✨"
    date := "2024-01-01"
    mood_color := "#DDA0DD" }

/-- C4 witness: two calls on the same date — different oracle outcome, hour,
day of week and language — share `visual_element` and `mood_color`. -/
theorem daily_affirmation_deterministic_witness :
    affirmWitnessFail.visual_element = affirmWitnessOk.visual_element ∧
      affirmWitnessFail.mood_color = affirmWitnessOk.mood_color := by
  have h : get_daily_affirmation (fun _ => ApiOutcome.failure "timeout")
      "2024-01-01" "Monday" 9 "english" = some affirmWitnessFail := by rfl
  have h' : get_daily_affirmation (fun _ => ApiOutcome.success "You are great.")
      "2024-01-01" "Tuesday" 20 "marathi" = some affirmWitnessOk := by rfl
  have hd := daily_affirmation_deterministic "2024-01-01" "Monday" "Tuesday"
    "english" "marathi" 9 20 _ _ _ _ h h'
  exact ⟨hd.2.2.2.1, hd.2.2.2.2.1⟩

/-- C10: for every date string the daily seed token consists solely of
lowercase hexadecimal digits and has length 8, so the base-16 readings of
its first and second 2-character slices always succeed, the modulo-reduced
indices are within the 8-entry visuals and 7-entry colors lists, and the
affirmation endpoint's decoration selection is total — it never raises,
whatever the oracle and ambient inputs. -/
theorem date_hash_hex_and_selection_total (today : String) :
    (∀ c ∈ (get_date_hash today).data, c ∈ hexDigits) ∧
      (get_date_hash today).length = 8 ∧
      (pyIntBase16 (pySlice (get_date_hash today) 0 2)).isSome = true ∧
      (pyIntBase16 (pySlice (get_date_hash today) 2 4)).isSome = true ∧
      ∀ (oracle : String → ApiOutcome) (day_of_week : String) (hour : Nat)
        (language : String),
        (get_daily_affirmation oracle today day_of_week hour language).isSome = true := by
  obtain ⟨v1, hv1⟩ := date_hash_slice02_some today
  obtain ⟨v2, hv2⟩ := date_hash_slice24_some today
  refine ⟨get_date_hash_chars today, get_date_hash_length today,
    by rw [hv1]; rfl, by rw [hv2]; rfl, ?_⟩
  intro oracle day_of_week hour language
  obtain ⟨ve, hve⟩ := Option.isSome_iff_exists.mp
    (visuals_get?_isSome (v1 % visuals.length) (Nat.mod_lt v1 (by decide)))
  obtain ⟨mc, hmc⟩ := Option.isSome_iff_exists.mp
    (colors_get?_isSome (v2 % colors.length) (Nat.mod_lt v2 (by decide)))
  unfold get_daily_affirmation
  rw [hv1, Option.some_bind, hv2, Option.some_bind, hve, Option.some_bind,
    hmc, Option.some_bind]
  rfl

end AIFun
